import Mathlib

/-!
Verification of the linedify event-processing core against its source.

The development shallowly embeds the three source modules:
* `src/linedify/dify.py` — the Dify agent client: SSE stream parsing
  (`process_agent_response`), the blocking-response parser, the two
  deliberately unsupported variants, and request-payload construction
  (`make_payloads` / the payload part of `invoke`).
* `src/linedify/session.py` — `ConversationSession` with its dict
  serialization, and `ConversationSessionStore` (`get_session`,
  `set_session`, `expire_session`) over an explicit association-list model
  of the unique-per-user table.
* `src/linedify/integration.py` — the orchestrator `process_event` /
  `handle_message_event`, embedded as pure functions over an environment
  recording the outcome of each awaited call for one event.

Machine-level details are abstracted as follows: timestamps and the store
timeout are integers (Python floats ordered the same way on the inputs of
interest); JSON objects that the code only passes through are association
lists; raised exceptions are the `Except.error` branch carrying the
`str(...)` of the raised exception.
-/

namespace Linedify

/-- JSON-object payloads (metadata blocks and the like) that the source only
stores and compares for truthiness, modelled as association lists. -/
abbrev Meta := List (String × Int)

/-- Key/value inputs merged into the agent request body. -/
abbrev Inputs := List (String × String)

/-- A decoded JSON chunk of the Dify SSE stream, as consumed by
`DifyAgent.process_agent_response` (`dify.py` lines 92-116): the parser only
reads the keys `event`, `answer`, `conversation_id`, `metadata` and
`message`, each of which may be absent. -/
structure Chunk where
  event : Option String
  answer : Option String
  conversation_id : Option String
  metadata : Option Meta
  message : Option String
  deriving DecidableEq, Repr

/-- One line of the streamed HTTP body, after the decode/strip step of
`process_agent_response` (`dify.py` lines 85-92): `nonData` is a line not
starting with `data:` (skipped), `done` is the payload `[DONE]`, `malformed`
is a `data:` line whose payload `json.loads` rejects, and `chunk` is a
parsed JSON object payload. -/
inductive StreamLine where
  | nonData
  | malformed
  | done
  | chunk (c : Chunk)
  deriving DecidableEq, Repr

/-- Embedding of `DifyAgent.process_agent_response` (`dify.py` lines
80-118): fold over the stream lines with accumulators `conversation_id`,
`response_text` and `response_data` (the latter is `none` for the empty
dict and `some m` once `response_data["metadata"] = m` was executed).
A raised exception is the `Except.error` branch. -/
def process_agent_response : List StreamLine → String → String → Option Meta →
    Except String (String × String × Option Meta)
  | [], cid, txt, dat => .ok (cid, txt, dat)
  | .nonData :: rest, cid, txt, dat => process_agent_response rest cid txt dat
  | .malformed :: _, _, _, _ => .error "json.decoder.JSONDecodeError"
  | .done :: _, cid, txt, dat => .ok (cid, txt, dat)
  | .chunk c :: rest, cid, txt, dat =>
    if c.event == some "message" then
      process_agent_response rest
        (match c.conversation_id with | some v => v | none => cid)
        (txt ++ c.answer.getD "") dat
    else if c.event == some "message_end" then
      process_agent_response rest cid txt
        (match c.metadata with
          | some m => if m.isEmpty then dat else some m
          | none => dat)
    else if c.event == some "error" then
      .error ("Dify API Error: " ++ c.message.getD "Unknown error")
    else
      process_agent_response rest cid txt dat

/-- Stated from the spec (§4.3, streamed variant): the answer texts of the
`message` fragments before the `[DONE]` sentinel, concatenated in order. -/
def stream_answers : List StreamLine → String
  | [] => ""
  | .nonData :: rest => stream_answers rest
  | .malformed :: _ => ""
  | .done :: _ => ""
  | .chunk c :: rest =>
    (if c.event == some "message" then c.answer.getD "" else "") ++ stream_answers rest

/-- Stated from the spec: the latest continuity token carried by a `message`
fragment before the `[DONE]` sentinel, starting from `cid`. -/
def stream_last_token : String → List StreamLine → String
  | cid, [] => cid
  | cid, .nonData :: rest => stream_last_token cid rest
  | cid, .malformed :: _ => cid
  | cid, .done :: _ => cid
  | cid, .chunk c :: rest =>
    if c.event == some "message" then
      stream_last_token (match c.conversation_id with | some v => v | none => cid) rest
    else stream_last_token cid rest

/-- Stated from the spec: the final metadata block captured from
`message_end` fragments before the `[DONE]` sentinel (a falsy metadata value
leaves the previous capture in place). -/
def stream_final_metadata : Option Meta → List StreamLine → Option Meta
  | dat, [] => dat
  | dat, .nonData :: rest => stream_final_metadata dat rest
  | dat, .malformed :: _ => dat
  | dat, .done :: _ => dat
  | dat, .chunk c :: rest =>
    if c.event == some "message_end" then
      stream_final_metadata
        (match c.metadata with
          | some m => if m.isEmpty then dat else some m
          | none => dat) rest
    else stream_final_metadata dat rest

/-- The stream has no parse-aborting fragment (no `error` chunk and no
non-JSON payload) before the `[DONE]` sentinel. -/
def stream_ok : List StreamLine → Bool
  | [] => true
  | .nonData :: rest => stream_ok rest
  | .malformed :: _ => false
  | .done :: _ => true
  | .chunk c :: rest => !(c.event == some "error") && stream_ok rest

/-- The concrete stream of the claim: `message:"Hel"` carrying token `c-1`,
`message:"lo"` carrying token `c-2`, `message_end:{x:1}`, the `[DONE]`
sentinel, and a trailing fragment that must be ignored. -/
def example_stream : List StreamLine :=
  [ .chunk ⟨some "message", some "Hel", some "c-1", none, none⟩,
    .chunk ⟨some "message", some "lo", some "c-2", none, none⟩,
    .chunk ⟨some "message_end", none, none, some [("x", 1)], none⟩,
    .done,
    .chunk ⟨some "message", some "IGNORED", some "c-9", none, none⟩ ]

/-- `nd` occurs at the start of the character list `hay`. -/
def list_starts : List Char → List Char → Bool
  | [], _ => true
  | _ :: _, [] => false
  | a :: ns, b :: hs => a == b && list_starts ns hs

/-- `nd` occurs somewhere inside the character list. -/
def list_has_sub (nd : List Char) : List Char → Bool
  | [] => nd.isEmpty
  | c :: hs => list_starts nd (c :: hs) || list_has_sub nd hs

/-- The string `nd` occurs as a substring of `hay`. -/
def str_has_sub (hay nd : String) : Bool :=
  list_has_sub nd.data hay.data

/-- Before the `[DONE]` sentinel, the first fragment that aborts the parse
(an `error` chunk or a non-JSON payload) exists and is an `error` chunk
whose `message` is `"boom"`. -/
def first_abort_is_boom : List StreamLine → Bool
  | [] => false
  | .nonData :: rest => first_abort_is_boom rest
  | .malformed :: _ => false
  | .done :: _ => false
  | .chunk c :: rest =>
    if c.event == some "error" then c.message.getD "Unknown error" == "boom"
    else first_abort_is_boom rest

/-- A stream whose first `error` fragment carries `"zap"` and whose second
carries `"boom"`: the parse aborts at the first one. -/
def two_error_stream : List StreamLine :=
  [ .chunk ⟨some "error", none, none, none, some "zap"⟩,
    .chunk ⟨some "error", none, none, none, some "boom"⟩,
    .done ]

/-- A stream accumulating some text and then hitting an `error` fragment
carrying `"boom"` before the sentinel. -/
def boom_stream : List StreamLine :=
  [ .chunk ⟨some "message", some "Hel", some "c-1", none, none⟩,
    .nonData,
    .chunk ⟨some "error", none, none, none, some "boom"⟩,
    .chunk ⟨some "message", some "lo", some "c-2", none, none⟩,
    .done ]

/-- Embedding of `ConversationSession` (`session.py` lines 6-12).
Timestamps are modelled as integers. -/
structure ConversationSession where
  user_id : String
  conversation_id : Option String
  updated_at : Int
  agent_key : String
  state : Option String
  deriving DecidableEq, Repr

/-- A value of the dictionary produced by `ConversationSession.to_dict`:
a string, Python `None`, or the `isoformat()` image of a timestamp
(identified with the timestamp it denotes, since `isoformat` is injective
and `fromisoformat` is its left inverse). -/
inductive DictVal where
  | str (s : String)
  | null
  | time (t : Int)
  deriving DecidableEq, Repr

/-- `dict.get(k)` on an association list: the value of the first matching
key, if any. -/
def dict_get : List (String × DictVal) → String → Option DictVal
  | [], _ => none
  | (k2, v) :: rest, k => if k2 == k then some v else dict_get rest k

/-- Embedding of `ConversationSession.to_dict` (`session.py` lines 14-21). -/
def to_dict (s : ConversationSession) : List (String × DictVal) :=
  [ ("user_id", .str s.user_id),
    ("conversation_id", match s.conversation_id with | some v => .str v | none => .null),
    ("updated_at", .time s.updated_at),
    ("agent_key", .str s.agent_key),
    ("state", match s.state with | some v => .str v | none => .null) ]

/-- Embedding of `ConversationSession.from_dict` (`session.py` lines 23-31):
`data["user_id"]` and `fromisoformat(data["updated_at"])` fail on a missing
key or a non-timestamp value (`none` result); `conversation_id` and `state`
default to `None` and `agent_key` to `"default"` when absent. -/
def from_dict (data : List (String × DictVal)) : Option ConversationSession :=
  match dict_get data "user_id", dict_get data "updated_at" with
  | some (.str uid), some (.time t) =>
    some { user_id := uid,
           conversation_id :=
             match dict_get data "conversation_id" with | some (.str v) => some v | _ => none,
           updated_at := t,
           agent_key :=
             match dict_get data "agent_key" with | some (.str v) => v | _ => "default",
           state :=
             match dict_get data "state" with | some (.str v) => some v | _ => none }
  | _, _ => none

/-- A row of the `conversation_sessions` table
(`ConversationSessionModel`, `session.py` lines 35-46); the `id` column
always equals `user_id`, so it is not repeated. -/
structure SessionRow where
  user_id : String
  conversation_id : Option String
  updated_at : Int
  is_expired : Bool
  agent_key : String
  state : Option String
  deriving DecidableEq, Repr

/-- The session table: a list of rows; the unique constraint on `user_id`
makes at most one row per user relevant, and queries take the first match
(`.first()`). -/
abbrev DB := List SessionRow

/-- `session.query(...).filter_by(user_id=user_id).first()`. -/
def find_by_user : DB → String → Option SessionRow
  | [], _ => none
  | r :: rest, uid => if r.user_id == uid then some r else find_by_user rest uid

/-- Update the first row of the given user, leaving every other row as it
was (the SQL UPDATE through the fetched model object). -/
def update_first (f : SessionRow → SessionRow) : DB → String → DB
  | [], _ => []
  | r :: rest, uid => if r.user_id == uid then f r :: rest else r :: update_first f rest uid

/-- The `ConversationSession(user_id)` constructor call with all defaults
(`session.py` lines 64-71): a fresh default session stamped with the
current time. -/
def fresh_session (user_id : String) (now : Int) : ConversationSession :=
  { user_id := user_id, conversation_id := none, updated_at := now,
    agent_key := "default", state := none }

/-- Embedding of `ConversationSessionStore.get_session` (`session.py` lines
55-79). `timeout` is the store's configured timeout, `now` the value of
`datetime.now(timezone.utc)` during the call. The read performs no store
mutation in the source (no field assignment, no commit), so it is a pure
function of the table. -/
def get_session (timeout : Int) (db : DB) (now : Int) (user_id : String) :
    Except String ConversationSession :=
  if user_id = "" then .error "user_id is required"
  else
    match find_by_user db user_id with
    | none => .ok (fresh_session user_id now)
    | some row =>
      if row.is_expired then .ok (fresh_session user_id now)
      else if timeout > 0 ∧ now - row.updated_at > timeout then .ok (fresh_session user_id now)
      else .ok { user_id := row.user_id, conversation_id := row.conversation_id,
                 updated_at := row.updated_at, agent_key := row.agent_key,
                 state := row.state }

/-- Embedding of `ConversationSessionStore.set_session` (`session.py` lines
81-99): stamp `updated_at = now`, then upsert by `user_id`; a pre-existing
row keeps its `is_expired` flag (the source never assigns it), a new row
gets the column default `False`. -/
def set_session (db : DB) (now : Int) (s : ConversationSession) : Except String DB :=
  if s.user_id = "" then .error "user_id is required"
  else
    match find_by_user db s.user_id with
    | some _ =>
      .ok (update_first
        (fun r => { user_id := s.user_id, conversation_id := s.conversation_id,
                    updated_at := now, is_expired := r.is_expired,
                    agent_key := s.agent_key, state := s.state }) db s.user_id)
    | none =>
      .ok (db ++ [{ user_id := s.user_id, conversation_id := s.conversation_id,
                    updated_at := now, is_expired := false,
                    agent_key := s.agent_key, state := s.state }])

/-- Embedding of `ConversationSessionStore.expire_session` (`session.py`
lines 101-110): mark the user's row expired in place; no row, no change. -/
def expire_session (db : DB) (user_id : String) : Except String DB :=
  if user_id = "" then .error "user_id is required"
  else .ok (update_first (fun r => { r with is_expired := true }) db user_id)

/-- `Except` result is a raised exception. -/
def is_err {ε α : Type} : Except ε α → Bool
  | .error _ => true
  | .ok _ => false

/-- The row `set_session` stores at time `now` for a previously unseen
user: every session field written through, `is_expired` at its column
default `false`. -/
def stored_row (s : ConversationSession) (now : Int) : SessionRow :=
  { user_id := s.user_id, conversation_id := s.conversation_id, updated_at := now,
    is_expired := false, agent_key := s.agent_key, state := s.state }

/-- A concrete session written at time 0 in the store examples. -/
def sess_w : ConversationSession :=
  { user_id := "alice", conversation_id := some "conv-9", updated_at := 5,
    agent_key := "emily", state := some "menu" }

/-- The row `set_session [] 0 sess_w` stores. -/
def row_w : SessionRow :=
  { user_id := "alice", conversation_id := some "conv-9", updated_at := 0,
    is_expired := false, agent_key := "emily", state := some "menu" }

/-- A one-row table for the no-time-expiry example. -/
def row9 : SessionRow :=
  { user_id := "bob", conversation_id := some "conv-7", updated_at := 3,
    is_expired := false, agent_key := "kay", state := none }

/-- `row9` after `expire_session`. -/
def row9x : SessionRow := { row9 with is_expired := true }

/-- The four configured agent variants (`DifyType`, `dify.py` lines
10-14). -/
inductive DifyType where
  | Agent
  | Chatbot
  | TextGenerator
  | Workflow
  deriving DecidableEq, Repr

/-- One entry of the `files` list attached to the request body
(`dify.py` lines 48-52). -/
structure FileRef where
  type : String
  transfer_method : String
  upload_file_id : String
  deriving DecidableEq, Repr

/-- The `/chat-messages` request body assembled by `make_payloads` and
`invoke` (`dify.py` lines 36-56 and 145-153); `conversation_id = none` and
`files = none` model the keys being absent from the dict. -/
structure Payloads where
  inputs : Inputs
  query : String
  response_mode : String
  user : String
  auto_generate_name : Bool
  conversation_id : Option String
  files : Option (List FileRef)
  deriving DecidableEq, Repr

/-- Python truthiness of an optional string: `None` and `""` are falsy. -/
def truthy_str : Option String → Bool
  | none => false
  | some s => !(s == "")

/-- Embedding of `DifyAgent.make_payloads` (`dify.py` lines 36-56).
`image_bytes` is the optional binary attachment; `upload_result` is the
outcome of the `upload_image` round trip (consulted only when the
attachment is truthy, i.e. non-`None` and non-empty); its failure aborts
the whole request. A truthy uploaded id attaches the `files` list and
substitutes the placeholder query `"."` when the query is empty. -/
def make_payloads (ty : DifyType) (user : String) (text : Option String)
    (image_bytes : Option (List Nat)) (upload_result : Except String String)
    (inputs : Option Inputs) : Except String Payloads :=
  let payloads : Payloads :=
    { inputs := inputs.getD [], query := text.getD "",
      response_mode := if ty = DifyType.Agent then "streaming" else "blocking",
      user := user, auto_generate_name := false,
      conversation_id := none, files := none }
  match image_bytes with
  | none => .ok payloads
  | some bs =>
    if bs.isEmpty then .ok payloads
    else
      match upload_result with
      | .error e => .error e
      | .ok uploaded_image_id =>
        if uploaded_image_id == "" then .ok payloads
        else
          .ok { payloads with
                files := some [{ type := "image", transfer_method := "local_file",
                                 upload_file_id := uploaded_image_id }],
                query := if payloads.query = "" then "." else payloads.query }

/-- Embedding of the request-construction part of `DifyAgent.invoke`
(`dify.py` lines 145-153): build the payloads, then attach
`conversation_id` exactly when the supplied token is truthy and
`start_as_new` is not set. -/
def invoke_payloads (ty : DifyType) (user : String) (conversation_id : Option String)
    (text : Option String) (image_bytes : Option (List Nat))
    (upload_result : Except String String) (inputs : Option Inputs)
    (start_as_new : Bool) : Except String Payloads :=
  match make_payloads ty user text image_bytes upload_result inputs with
  | .error e => .error e
  | .ok p =>
    .ok (if truthy_str conversation_id && !start_as_new then
          { p with conversation_id := conversation_id }
         else p)

/-- The parsed JSON document of a blocking (non-streamed) response, as read
by `process_chatbot_response` (`dify.py` lines 120-131): only the keys the
parser touches. -/
structure ChatbotBody where
  conversation_id : Option String
  answer : Option String
  metadata : Option Meta
  deriving DecidableEq, Repr

/-- Embedding of `DifyAgent.process_chatbot_response` (`dify.py` lines
120-131). -/
def process_chatbot_response (b : ChatbotBody) :
    Except String (String × String × Option Meta) :=
  .ok (b.conversation_id.getD "", b.answer.getD "",
    match b.metadata with
    | some m => if m.isEmpty then none else some m
    | none => none)

/-- Embedding of `DifyAgent.process_textgenerator_response` (`dify.py`
lines 133-137): unconditionally raises. -/
def process_textgenerator_response (_b : ChatbotBody) :
    Except String (String × String × Option Meta) :=
  .error "TextGenerator is not supported for now."

/-- Embedding of `DifyAgent.process_workflow_response` (`dify.py` lines
139-143): unconditionally raises. -/
def process_workflow_response (_b : ChatbotBody) :
    Except String (String × String × Option Meta) :=
  .error "Workflow is not supported for now."

/-- An HTTP response body, carrying both possible shapes: the streamed
lines (consumed by the Agent processor) and the parsed JSON document
(consumed by the others). -/
structure DifyResponse where
  lines : List StreamLine
  body : ChatbotBody
  deriving DecidableEq, Repr

/-- The `response_processors` dispatch table of `DifyAgent.__init__`
(`dify.py` lines 28-33), applied to a response as `invoke` does at line
170-171. -/
def response_processor (ty : DifyType) (r : DifyResponse) :
    Except String (String × String × Option Meta) :=
  match ty with
  | DifyType.Agent => process_agent_response r.lines "" "" none
  | DifyType.Chatbot => process_chatbot_response r.body
  | DifyType.TextGenerator => process_textgenerator_response r.body
  | DifyType.Workflow => process_workflow_response r.body

/-- The outcome of each awaited call made by
`LineDifyIntegrator.handle_message_event` for one concrete event
(`integration.py` lines 147-195): `parser_found` is whether
`message_parsers` maps the event's content kind; each `Except` field is
the completed result of the corresponding call, `error` meaning it raised;
`agent_config_found` is whether `dify_agents.get(agent_key,
dify_agents["default"])` resolves (it raises only when the `"default"`
key is missing too). -/
structure MsgEnv where
  parser_found : Bool
  parse_outcome : Except String (String × Option (List Nat))
  get_session_outcome : Except String ConversationSession
  make_inputs_outcome : Except String Inputs
  agent_config_found : Bool
  invoke_outcome : Except String (String × String × Option Meta)
  set_session_outcome : Except String Unit
  to_reply_outcome : Except String (List String)

/-- The `try` block of `handle_message_event` (`integration.py` lines
149-194), run left to right; an error carries the raised message together
with the value of the local `conversation_session` at the point of the
raise (`none` before `get_session` succeeded, afterwards the loaded
session, with `conversation_id` overwritten once `invoke` returned). -/
def try_body (env : MsgEnv) : Except (String × Option ConversationSession) (List String) :=
  if env.parser_found = false then .error ("Unhandled message type", none)
  else
    match env.parse_outcome with
    | .error e => .error (e, none)
    | .ok _ =>
      match env.get_session_outcome with
      | .error e => .error (e, none)
      | .ok cs =>
        match env.make_inputs_outcome with
        | .error e => .error (e, some cs)
        | .ok _ =>
          if env.agent_config_found = false then .error ("KeyError: default", some cs)
          else
            match env.invoke_outcome with
            | .error e => .error (e, some cs)
            | .ok r =>
              match env.set_session_outcome with
              | .error e => .error (e, some { cs with conversation_id := some r.1 })
              | .ok _ =>
                match env.to_reply_outcome with
                | .error e => .error (e, some { cs with conversation_id := some r.1 })
                | .ok msgs => .ok msgs

/-- Modelled from the spec: `src/linedify/integration.py` is truncated at
line 195, inside `handle_message_event`'s `try` block, so the function's
`except` clause and final `return` are missing from the source. Per spec
§4.2, a failure during handling triggers exactly one call to the error
hook with the last successfully loaded session (or null before session
load), and a failure inside the error hook itself is logged and swallowed,
producing no reply. The result pairs the returned reply list (`none` =
no reply) with the trace of error-hook calls, each recording its session
argument. -/
def handle_message_event (hook : Option ConversationSession → Except String (List String))
    (env : MsgEnv) : Option (List String) × List (Option ConversationSession) :=
  match try_body env with
  | .ok msgs => (some msgs, [])
  | .error p =>
    match hook p.2 with
    | .ok msgs => (some msgs, [p.2])
    | .error _ => (none, [p.2])

/-- The data of one inbound event run through
`LineDifyIntegrator.process_event` (`integration.py` lines 130-144):
the event kind, the outcome of `validate_event` (its reply list, `[]`
covering both `None` and an empty list, which are equally falsy), the
message-handler environment (used when the kind is `"message"`, the only
registered kind in `__init__`), the outcome of whichever other handler the
kind dispatches to, and the error hook `to_error_message` as a function of
its session argument (`none` models the call with the argument omitted,
hitting the hook's `session=None` default). -/
structure EventEnv where
  event_type : String
  validate_outcome : Except String (List String)
  msg_env : MsgEnv
  other_handler_outcome : Except String (List String)
  hook : Option ConversationSession → Except String (List String)

/-- Embedding of `LineDifyIntegrator.process_event` (`integration.py`
lines 130-144): validation short-circuits on a truthy reply list; the
`"message"` kind dispatches to `handle_message_event`; any exception
escaping the `try` block is caught and answered by one error-hook call
without a session argument, whose own failure propagates (the `return
await self._to_error_message(event, ex)` at line 144 is unguarded).
The first component is the returned value (`error` = an exception
propagated to the caller), the second the trace of error-hook calls. -/
def process_event (env : EventEnv) :
    Except String (Option (List String)) × List (Option ConversationSession) :=
  match env.validate_outcome with
  | .error _ =>
    (match env.hook none with
     | .ok msgs => (.ok (some msgs), [none])
     | .error e2 => (.error e2, [none]))
  | .ok (m :: ms) => (.ok (some (m :: ms)), [])
  | .ok [] =>
    if env.event_type == "message" then
      (.ok (handle_message_event env.hook env.msg_env).1,
        (handle_message_event env.hook env.msg_env).2)
    else
      match env.other_handler_outcome with
      | .ok msgs => (.ok (some msgs), [])
      | .error _ =>
        (match env.hook none with
         | .ok msgs => (.ok (some msgs), [none])
         | .error e2 => (.error e2, [none]))

/-- The dispatched handler of the event raised (for a `"message"` event,
its `try` block failed; otherwise the dispatched handler's call failed). -/
def handler_fails (env : EventEnv) : Bool :=
  if env.event_type == "message" then is_err (try_body env.msg_env)
  else is_err env.other_handler_outcome

/-- The `conversation_session` value at the failure point of the message
handler (`none` when the body succeeded). -/
def err_session (env : MsgEnv) : Option ConversationSession :=
  match try_body env with
  | .error p => p.2
  | .ok _ => none

/-- The session argument the error hook receives for a failing event. -/
def hook_session_arg (env : EventEnv) : Option ConversationSession :=
  if env.event_type == "message" then err_session env.msg_env else none

/-- The first failing step of the message handler precedes the session
load: unmapped content kind, failing parse, or failing `get_session`. -/
def fails_before_session_load (env : MsgEnv) : Bool :=
  !env.parser_found || is_err env.parse_outcome || is_err env.get_session_outcome

/-- The event's failure precedes session load (a non-message handler never
loads a session). -/
def event_fails_before_load (env : EventEnv) : Bool :=
  if env.event_type == "message" then fails_before_session_load env.msg_env else true

/-- A message-handler run that fails at `set_session` (after the session
was loaded and `invoke` returned token `c-1`). -/
def msg_env_set_fails : MsgEnv :=
  { parser_found := true, parse_outcome := .ok ("hi", none),
    get_session_outcome := .ok (fresh_session "alice" 0),
    make_inputs_outcome := .ok [], agent_config_found := true,
    invoke_outcome := .ok ("c-1", "yo", none),
    set_session_outcome := .error "db down", to_reply_outcome := .ok ["x"] }

/-- A message event whose handler fails at `set_session` and whose error
hook succeeds. -/
def c3_env : EventEnv :=
  { event_type := "message", validate_outcome := .ok [],
    msg_env := msg_env_set_fails, other_handler_outcome := .ok [],
    hook := fun _ => .ok ["sorry, something went wrong"] }

/-- A non-message event whose handler raises and whose error hook raises on
every call. -/
def c8_env : EventEnv :=
  { event_type := "postback", validate_outcome := .ok [],
    msg_env := msg_env_set_fails, other_handler_outcome := .error "handler boom",
    hook := fun _ => .error "hook boom" }

/-- A message event whose handler fails at `invoke` and whose error hook
raises on every call. -/
def c8w_env : EventEnv :=
  { event_type := "message", validate_outcome := .ok [],
    msg_env := { msg_env_set_fails with invoke_outcome := .error "network down" },
    other_handler_outcome := .ok [],
    hook := fun _ => .error "hook boom" }

/-- The session the error hook receives in the `c3_env` run: the loaded
session with the continuity token `invoke` had already returned. -/
def c3_expected_session : ConversationSession :=
  { user_id := "alice", conversation_id := some "c-1", updated_at := 0,
    agent_key := "default", state := none }

end Linedify

namespace Linedify

/-- C1: on every stream with no aborting fragment before the `[DONE]`
sentinel, the Agent-variant stream parser returns the `message` answer texts
appended in order to the text accumulator, the latest continuity token
carried by a `message` fragment, and the final captured `message_end`
metadata block; fragments after `[DONE]` are never consumed (the spec
functions stop there). -/
theorem process_agent_response_spec (ls : List StreamLine) (cid txt : String)
    (dat : Option Meta) (h : stream_ok ls = true) :
    process_agent_response ls cid txt dat =
      .ok (stream_last_token cid ls, txt ++ stream_answers ls, stream_final_metadata dat ls) := by
  induction ls generalizing cid txt dat with
  | nil => simp [process_agent_response, stream_last_token, stream_answers, stream_final_metadata]
  | cons hd rest ih =>
    cases hd with
    | nonData =>
      simp only [stream_ok] at h
      simpa [process_agent_response, stream_last_token, stream_answers,
        stream_final_metadata] using ih cid txt dat h
    | malformed => simp [stream_ok] at h
    | done =>
      simp [process_agent_response, stream_last_token, stream_answers, stream_final_metadata]
    | chunk c =>
      simp only [stream_ok, Bool.and_eq_true, Bool.not_eq_true'] at h
      obtain ⟨hne, hrest⟩ := h
      by_cases hmsg : c.event = some "message"
      · simp [process_agent_response, stream_last_token, stream_answers,
          stream_final_metadata, beq_iff_eq, hmsg, ih _ _ _ hrest, String.append_assoc]
      · by_cases hend : c.event = some "message_end"
        · simp [process_agent_response, stream_last_token, stream_answers,
            stream_final_metadata, beq_iff_eq, hmsg, hend, ih _ _ _ hrest]
        · have herr : c.event ≠ some "error" := by
            intro hcontra
            rw [hcontra] at hne
            simp at hne
          simp [process_agent_response, stream_last_token, stream_answers,
            stream_final_metadata, beq_iff_eq, hmsg, hend, herr, ih _ _ _ hrest]

/-- Witness for C1: the claim's concrete stream yields text `"Hello"`,
metadata `{x:1}`, and the token `c-2` from the last fragment carrying one. -/
theorem process_agent_response_spec_witness :
    process_agent_response example_stream "" "" none = .ok ("c-2", "Hello", some [("x", 1)]) := by
  have h := process_agent_response_spec example_stream "" "" none (by decide)
  simpa [example_stream, stream_last_token, stream_answers, stream_final_metadata] using h

/-- Helper: when the first aborting fragment before the sentinel is an
`error` chunk with message `"boom"`, the parse raises exactly the
corresponding exception, whatever was accumulated so far. -/
theorem process_agent_response_first_boom (ls : List StreamLine) (cid txt : String)
    (dat : Option Meta) (h : first_abort_is_boom ls = true) :
    process_agent_response ls cid txt dat = .error ("Dify API Error: " ++ "boom") := by
  induction ls generalizing cid txt dat with
  | nil => simp [first_abort_is_boom] at h
  | cons hd rest ih =>
    cases hd with
    | nonData =>
      simp only [first_abort_is_boom] at h
      simpa [process_agent_response] using ih cid txt dat h
    | malformed => simp [first_abort_is_boom] at h
    | done => simp [first_abort_is_boom] at h
    | chunk c =>
      by_cases herr : c.event = some "error"
      · simp only [first_abort_is_boom, beq_iff_eq, herr, if_true, if_pos] at h
        simp [process_agent_response, beq_iff_eq, herr, h]
      · simp only [first_abort_is_boom, beq_iff_eq, herr, if_false, if_neg] at h
        by_cases hmsg : c.event = some "message"
        · simpa [process_agent_response, beq_iff_eq, hmsg] using ih _ _ _ h
        · by_cases hend : c.event = some "message_end"
          · simpa [process_agent_response, beq_iff_eq, hmsg, hend] using ih _ _ _ h
          · simpa [process_agent_response, beq_iff_eq, hmsg, hend, herr] using ih _ _ _ h

/-- Counterexample to C2 as stated: the stream carries an `error` fragment
with message `"boom"` before the `[DONE]` sentinel, yet the parse fails with
`"Dify API Error: zap"` — the message of the earlier `error` fragment — and
that message does not contain `"boom"`. -/
theorem error_boom_not_reported_counterexample :
    process_agent_response two_error_stream "" "" none = .error "Dify API Error: zap" ∧
      str_has_sub "Dify API Error: zap" "boom" = false := by
  exact ⟨rfl, by decide⟩

/-- C2 (amended): for every stream whose first parse-aborting fragment
before the `[DONE]` sentinel is an `error` fragment carrying message
`"boom"`, the Agent-variant parse fails the whole call with an exception
whose message contains `"boom"`, and no accumulated answer text is
returned (the result is the bare error). -/
theorem error_stream_fails_with_boom (ls : List StreamLine) (cid txt : String)
    (dat : Option Meta) (h : first_abort_is_boom ls = true) :
    process_agent_response ls cid txt dat = .error ("Dify API Error: " ++ "boom") ∧
      str_has_sub ("Dify API Error: " ++ "boom") "boom" = true :=
  ⟨process_agent_response_first_boom ls cid txt dat h, by decide⟩

/-- Witness for the amended C2: on the concrete `boom_stream` the parse
aborts with `"Dify API Error: boom"` even though text was accumulated. -/
theorem error_stream_fails_with_boom_witness :
    process_agent_response boom_stream "" "" none = .error ("Dify API Error: " ++ "boom") ∧
      str_has_sub ("Dify API Error: " ++ "boom") "boom" = true :=
  error_stream_fails_with_boom boom_stream "" "" none (by decide)

/-- C10: serializing any session to its dictionary form and deserializing
back restores every field, including null `conversation_id` and `state`. -/
theorem session_dict_round_trip (s : ConversationSession) :
    from_dict (to_dict s) = some s := by
  obtain ⟨uid, cid, t, key, st⟩ := s
  cases cid <;> cases st <;> rfl

/-- C4: `get_session` raises `"user_id is required"` exactly on the empty
`user_id`; on any non-empty `user_id` it never raises, and on a user with
no stored row it returns the fresh default session (`conversation_id =
none`, `agent_key = "default"`). -/
theorem get_session_total (T : Int) (db : DB) (now : Int) (uid : String) :
    (get_session T db now uid = .error "user_id is required" ↔ uid = "") ∧
    (uid ≠ "" → is_err (get_session T db now uid) = false) ∧
    (uid ≠ "" → find_by_user db uid = none →
      get_session T db now uid = .ok (fresh_session uid now)) := by
  by_cases huid : uid = ""
  · simp [get_session, huid]
  · cases hf : find_by_user db uid with
    | none => simp [get_session, huid, hf, is_err]
    | some row =>
      refine ⟨?_, fun _ => ?_, fun _ h => by simp [hf] at h⟩
      · simp only [get_session, if_neg huid, hf]
        constructor
        · intro hcontra
          split at hcontra
          · simp at hcontra
          · split at hcontra <;> simp at hcontra
        · intro hc; exact absurd hc huid
      · simp only [get_session, if_neg huid, hf]
        split
        · rfl
        · split <;> rfl

/-- Witness for C4: an unseen non-empty user on an empty table gets the
fresh default session. -/
theorem get_session_total_witness :
    get_session 3600 [] 0 "alice" = .ok (fresh_session "alice" 0) :=
  (get_session_total 3600 [] 0 "alice").2.2 (by decide) rfl

/-- Appending a row for a user not yet in the table is found exactly when
the new row is that user's. -/
theorem find_by_user_append_of_none (db : DB) (uid : String) (r : SessionRow)
    (h : find_by_user db uid = none) :
    find_by_user (db ++ [r]) uid = if r.user_id == uid then some r else none := by
  induction db with
  | nil => simp [find_by_user]
  | cons hd rest ih =>
    by_cases hh : (hd.user_id == uid) = true
    · simp only [find_by_user, if_pos hh] at h
      exact absurd h (by simp)
    · simp only [find_by_user, if_neg hh] at h
      simpa [find_by_user, hh] using ih h

/-- Marking a user expired updates that user's row in place and nothing
else. -/
theorem find_by_user_update_expire (db : DB) (uid : String) (row : SessionRow)
    (h : find_by_user db uid = some row) :
    find_by_user (update_first (fun r => { r with is_expired := true }) db uid) uid =
      some { row with is_expired := true } := by
  induction db with
  | nil => simp [find_by_user] at h
  | cons hd rest ih =>
    by_cases hh : (hd.user_id == uid) = true
    · simp only [find_by_user, if_pos hh] at h
      obtain rfl : hd = row := by injection h
      simp [update_first, find_by_user, hh]
    · simp only [find_by_user, if_neg hh] at h
      simp [update_first, find_by_user, hh, ih h]

/-- C5: with timeout `T > 0`, a session written at `t0` for a previously
unseen user and read at `t1` with `t1 - t0 > T` yields the fresh default
session, while the stored row still carries every written field
(`conversation_id` included); any read within the window still returns the
stored values, so the record is untouched until the next `set_session`
(`get_session` is a pure function of the table: the source read performs
no mutation or commit). -/
theorem session_expiry_frame (T t0 t1 : Int) (db : DB) (s : ConversationSession) (db' : DB)
    (hT : 0 < T) (huid : s.user_id ≠ "")
    (hnone : find_by_user db s.user_id = none)
    (hset : set_session db t0 s = .ok db')
    (hexp : t1 - t0 > T) :
    get_session T db' t1 s.user_id = .ok (fresh_session s.user_id t1) ∧
    find_by_user db' s.user_id = some (stored_row s t0) ∧
    (∀ t2 : Int, t2 - t0 ≤ T →
      get_session T db' t2 s.user_id =
        .ok { user_id := s.user_id, conversation_id := s.conversation_id,
              updated_at := t0, agent_key := s.agent_key, state := s.state }) := by
  simp only [set_session, if_neg huid, hnone] at hset
  obtain rfl : db ++ [stored_row s t0] = db' := by injection hset
  have hfind : find_by_user (db ++ [stored_row s t0]) s.user_id =
      some (stored_row s t0) := by
    rw [find_by_user_append_of_none db s.user_id _ hnone]
    simp [stored_row]
  refine ⟨?_, hfind, fun t2 ht2 => ?_⟩
  · simp only [get_session, if_neg huid, hfind]
    rw [if_neg (by simp [stored_row]), if_pos ⟨hT, hexp⟩]
  · simp only [get_session, if_neg huid, hfind]
    rw [if_neg (by simp [stored_row]), if_neg (fun hc => absurd hc.2 (not_lt.2 ht2))]
    simp [stored_row]

/-- Witness for C5: concrete write at time 0, expiring read at time 11
with timeout 10, in-window read at time 7. -/
theorem session_expiry_frame_witness :
    get_session 10 [row_w] 11 "alice" = .ok (fresh_session "alice" 11) ∧
    find_by_user [row_w] "alice" =
      some { user_id := "alice", conversation_id := some "conv-9", updated_at := 0,
             is_expired := false, agent_key := "emily", state := some "menu" } ∧
    get_session 10 [row_w] 7 "alice" =
      .ok { user_id := "alice", conversation_id := some "conv-9", updated_at := 0,
            agent_key := "emily", state := some "menu" } := by
  have h := session_expiry_frame 10 0 11 [] sess_w [row_w] (by decide) (by decide) rfl rfl
    (by decide)
  exact ⟨h.1, h.2.1, h.2.2 7 (by decide)⟩

/-- C9: with timeout `T ≤ 0`, a stored non-expired session is returned with
all its stored fields at every read time — the passage of time never yields
the default session — and only after an explicit `expire_session` call do
reads return the fresh default session. -/
theorem no_time_expiry (T : Int) (db : DB) (uid : String) (row : SessionRow)
    (hT : T ≤ 0) (hu : uid ≠ "") (hrow : find_by_user db uid = some row)
    (hne : row.is_expired = false) :
    (∀ now : Int, get_session T db now uid =
      .ok { user_id := row.user_id, conversation_id := row.conversation_id,
            updated_at := row.updated_at, agent_key := row.agent_key,
            state := row.state }) ∧
    (∀ db' : DB, expire_session db uid = .ok db' →
      ∀ now : Int, get_session T db' now uid = .ok (fresh_session uid now)) := by
  constructor
  · intro now
    simp only [get_session, if_neg hu, hrow]
    rw [if_neg (by simp [hne]), if_neg (fun hc => absurd hc.1 (not_lt.2 hT))]
  · intro db' hdb' now
    simp only [expire_session, if_neg hu] at hdb'
    obtain rfl : update_first (fun r => { r with is_expired := true }) db uid = db' := by
      injection hdb'
    have hfind := find_by_user_update_expire db uid row hrow
    simp only [get_session, if_neg hu, hfind]
    simp

/-- Witness for C9: with timeout 0 a session written at time 3 is still
returned at time 1000000; after `expire_session` the same read returns the
fresh default. -/
theorem no_time_expiry_witness :
    get_session 0 [row9] 1000000 "bob" =
      .ok { user_id := "bob", conversation_id := some "conv-7", updated_at := 3,
            agent_key := "kay", state := none } ∧
    get_session 0 [row9x] 1000000 "bob" = .ok (fresh_session "bob" 1000000) := by
  have h := no_time_expiry 0 [row9] "bob" row9 (by decide) (by decide) rfl rfl
  exact ⟨h.1 1000000, h.2 [row9x] rfl 1000000⟩

/-- `make_payloads` never attaches a `conversation_id` key itself. -/
theorem make_payloads_no_conversation_id (ty : DifyType) (user : String)
    (text : Option String) (image_bytes : Option (List Nat))
    (upload_result : Except String String) (inputs : Option Inputs) (p : Payloads)
    (h : make_payloads ty user text image_bytes upload_result inputs = .ok p) :
    p.conversation_id = none := by
  unfold make_payloads at h
  rcases image_bytes with _ | bs
  · cases h
    rfl
  · simp only at h
    split at h
    · cases h
      rfl
    · rcases upload_result with e | fid
      · cases h
      · simp only at h
        split at h
        · cases h
          rfl
        · cases h
          rfl

/-- C6: the outgoing request body carries the `conversation_id` field iff a
truthy (non-`None`, non-empty) continuity token is supplied and
`start_as_new` is not requested; in that case it carries exactly the
supplied token, otherwise the key is absent and a new remote conversation
starts. -/
theorem invoke_attaches_token_iff (ty : DifyType) (user : String)
    (conversation_id : Option String) (text : Option String)
    (image_bytes : Option (List Nat)) (upload_result : Except String String)
    (inputs : Option Inputs) (start_as_new : Bool) (p : Payloads)
    (h : invoke_payloads ty user conversation_id text image_bytes upload_result
      inputs start_as_new = .ok p) :
    p.conversation_id =
      (if truthy_str conversation_id && !start_as_new then conversation_id else none) := by
  unfold invoke_payloads at h
  cases hm : make_payloads ty user text image_bytes upload_result inputs with
  | error e => rw [hm] at h; cases h
  | ok q =>
    have hq := make_payloads_no_conversation_id ty user text image_bytes
      upload_result inputs q hm
    rw [hm] at h
    by_cases hc : (truthy_str conversation_id && !start_as_new) = true
    · simp only [hc, if_true] at h ⊢
      cases h
      rfl
    · simp only [hc, if_false, Bool.not_eq_true] at h ⊢
      rw [if_neg (by simp [Bool.not_eq_true] at hc; simp [hc])] at h
      cases h
      exact hq

/-- Witness for C6: a truthy token with `start_as_new = false` is attached
verbatim; the same call with `start_as_new = true` omits the key. -/
theorem invoke_attaches_token_iff_witness :
    ({ inputs := [], query := "hi", response_mode := "streaming", user := "u",
       auto_generate_name := false, conversation_id := some "conv-1",
       files := none } : Payloads).conversation_id =
      (if truthy_str (some "conv-1") && !false then some "conv-1" else none) :=
  invoke_attaches_token_iff DifyType.Agent "u" (some "conv-1") (some "hi") none
    (.ok "") none false _ rfl

/-- C7: for every response body, the two placeholder variants
(TextGenerator and Workflow) always fail with their unsupported-type error
and never return answer text. -/
theorem placeholder_variants_always_fail (r : DifyResponse) :
    response_processor DifyType.TextGenerator r =
      .error "TextGenerator is not supported for now." ∧
    response_processor DifyType.Workflow r =
      .error "Workflow is not supported for now." :=
  ⟨rfl, rfl⟩

/-- Helper: when the message handler's body fails, the session recorded at
the failure point is absent exactly when the failure preceded the session
load. -/
theorem err_session_none_iff (env : MsgEnv) (h : is_err (try_body env) = true) :
    (err_session env = none ↔ fails_before_session_load env = true) := by
  obtain ⟨pf, po, go, mi, acf, inv, st, tr⟩ := env
  cases pf <;> rcases po with e | v <;> rcases go with e2 | cs <;>
    rcases mi with e3 | i <;> cases acf <;> rcases inv with e4 | r <;>
    rcases st with e5 | u <;> rcases tr with e6 | msgs <;>
    simp_all [try_body, err_session, fails_before_session_load, is_err]

/-- C3: whenever the dispatched handler of an event raises, the run makes
exactly one call to the error hook, and the session argument of that call
is absent precisely when the failure preceded the session load (for a
message event: unmapped content kind, failing parse, or failing
`get_session`; for any other event the dispatched handler loads no
session). -/
theorem error_hook_called_once (env : EventEnv)
    (hv : env.validate_outcome = Except.ok [])
    (hf : handler_fails env = true) :
    (process_event env).2 = [hook_session_arg env] ∧
    (hook_session_arg env = none ↔ event_fails_before_load env = true) := by
  by_cases hm : (env.event_type == "message") = true
  · simp only [handler_fails, hm, if_true] at hf
    cases htb : try_body env.msg_env with
    | ok msgs => rw [htb] at hf; simp [is_err] at hf
    | error p =>
      have hes : err_session env.msg_env = p.2 := by simp [err_session, htb]
      constructor
      · simp only [process_event, hv, hm, if_true, handle_message_event, htb,
          hook_session_arg]
        cases hh : env.hook p.2 <;> simp [hh, hes]
      · simp only [hook_session_arg, event_fails_before_load, hm, if_true]
        exact err_session_none_iff env.msg_env hf
  · rw [Bool.not_eq_true] at hm
    simp only [handler_fails, hm, Bool.false_eq_true, if_false] at hf
    cases ho : env.other_handler_outcome with
    | ok msgs => rw [ho] at hf; simp [is_err] at hf
    | error e =>
      constructor
      · simp only [process_event, hv, hm, hook_session_arg, ho]
        cases hh : env.hook none <;> simp [hh]
      · simp [hook_session_arg, event_fails_before_load, hm]

/-- Witness for C3: a message event failing at `set_session` (after the
session was loaded and the token updated) makes exactly one error-hook
call carrying that session. -/
theorem error_hook_called_once_witness :
    (process_event c3_env).2 = [some c3_expected_session] ∧
    (hook_session_arg c3_env = none ↔ event_fails_before_load c3_env = true) := by
  have h := error_hook_called_once c3_env rfl rfl
  exact ⟨h.1.trans (by decide), h.2⟩

/-- Counterexample to C8 as stated: for a non-message event whose handler
raises, the error-hook call sits unguarded at `integration.py` line 144,
so when the hook itself raises, `process_event` re-raises that exception to
its caller (and `process_request` calls `process_event` outside its `try`,
line 116): the exception is not swallowed by the orchestrator. -/
theorem hook_failure_propagates_counterexample :
    (process_event c8_env).1 = Except.error "hook boom" ∧
    (process_event c8_env).2 = [none] :=
  ⟨rfl, rfl⟩

/-- C8 (amended): for every message event whose handler raises, if the
error hook itself raises while producing the error reply, that exception
is swallowed — the event yields no reply and no exception reaches the
caller of the event-processing step. -/
theorem hook_failure_swallowed_for_message (env : EventEnv)
    (hm : env.event_type = "message")
    (hv : env.validate_outcome = Except.ok [])
    (hf : is_err (try_body env.msg_env) = true)
    (hh : is_err (env.hook (err_session env.msg_env)) = true) :
    (process_event env).1 = Except.ok none ∧
    (process_event env).2 = [err_session env.msg_env] := by
  cases htb : try_body env.msg_env with
  | ok msgs => rw [htb] at hf; simp [is_err] at hf
  | error p =>
    have hes : err_session env.msg_env = p.2 := by simp [err_session, htb]
    rw [hes] at hh
    cases hhh : env.hook p.2 with
    | ok msgs => rw [hhh] at hh; simp [is_err] at hh
    | error e =>
      simp [process_event, hv, hm, handle_message_event, htb, hhh, hes]

/-- Witness for the amended C8: a message event failing at `invoke`, with
an always-raising error hook, produces no reply and returns normally after
exactly one hook call. -/
theorem hook_failure_swallowed_for_message_witness :
    (process_event c8w_env).1 = Except.ok none ∧
    (process_event c8w_env).2 = [some (fresh_session "alice" 0)] := by
  have h := hook_failure_swallowed_for_message c8w_env rfl rfl rfl rfl
  exact ⟨h.1, h.2.trans (by decide)⟩

end Linedify
